import Mathlib

/-!
Verification of the SSH process-orchestration layer of `open-remote-ssh`.

The development shallowly embeds the connection wrapper (`SSHConnection`:
argument building, `exec`, `execAndWaitUntil`, tunnel management, event
emission) and the resolver (`RemoteSSHResolver.resolve`) as executable Lean
definitions, and proves or refutes the specification claims about them.

JavaScript conventions carried over by the embedding:
* optional / possibly-`undefined` values are `Option`;
* string interpolation of `undefined` produces the text `"undefined"`;
* truthiness of a string is non-emptiness, of a number is non-zeroness;
* `Object.assign` copies a key that is present even when its value is
  `undefined`, so option objects distinguish an absent key
  (outer `none`) from a key set to `undefined` (`some none`).
-/

set_option autoImplicit false

namespace OpenRemoteSSH

/-- Does the character list start with the pattern? -/
def startsWithList : List Char → List Char → Bool
  | _, [] => true
  | [], _ :: _ => false
  | c :: cs, p :: ps => c == p && startsWithList cs ps

/-- Does the character list contain the pattern as a contiguous sublist? -/
def containsList (pat : List Char) : List Char → Bool
  | [] => startsWithList [] pat
  | c :: cs => startsWithList (c :: cs) pat || containsList pat cs

/-- JavaScript `haystack.includes(needle)` on strings. -/
def strContains (hay needle : String) : Bool :=
  containsList needle.data hay.data

/-- JavaScript template interpolation of a possibly-undefined string. -/
def optStr : Option String → String
  | none => "undefined"
  | some s => s

/-- JavaScript template interpolation of a possibly-undefined number. -/
def optNat : Option Nat → String
  | none => "undefined"
  | some n => Nat.repr n

/-- JavaScript string truthiness of an optional string field. -/
def strTruthy : Option String → Bool
  | none => false
  | some s => !(s = "")

/-- JavaScript number truthiness of an optional numeric field. -/
def natTruthy : Option Nat → Bool
  | none => false
  | some n => !(n = 0)

/-- Merged connection configuration (`SSHConnectConfig` after the
constructor's `Object.assign`).  A `none` field is `undefined`. -/
structure SSHConnectConfig where
  host : String
  port : Option Nat
  username : Option String
  identity : Option String
  connectTimeout : Option Nat
  sshOptions : List String
  deriving DecidableEq, Repr

/-- Constructor argument object.  For each optional key the outer `Option`
records whether the key is present in the object literal at all, and the
inner `Option` is its (possibly `undefined`) value, matching
`Object.assign` semantics. -/
structure SSHConnectOptions where
  host : String
  port : Option (Option Nat)
  username : Option (Option String)
  identity : Option (Option String)
  connectTimeout : Option (Option Nat)
  sshOptions : Option (List String)
  deriving DecidableEq, Repr

/-- The module-level `defaultOptions` merge performed by the constructor:
`this.config = Object.assign(\x7b\x7d, defaultOptions, options)`.  Defaults
`port: 22` and `connectTimeout: 60` survive only when the corresponding key
is absent from `options`; a key present with value `undefined` overwrites
the default with `undefined`. -/
def mergeConfig (o : SSHConnectOptions) : SSHConnectConfig where
  host := o.host
  port := match o.port with
    | none => some 22
    | some v => v
  username := match o.username with
    | none => none
    | some v => v
  identity := match o.identity with
    | none => none
    | some v => v
  connectTimeout := match o.connectTimeout with
    | none => some 60
    | some v => v
  sshOptions := match o.sshOptions with
    | none => []
    | some v => v

/-- The fixed leading options pushed by `buildSSHArgs`. -/
def baseArgs (c : SSHConnectConfig) : List String :=
  ["-o", "ConnectTimeout=" ++ optNat c.connectTimeout,
   "-o", "ServerAliveInterval=60",
   "-o", "ServerAliveCountMax=3",
   "-o", "EnableEscapeCommandline=yes",
   "-T"]

/-- The `-i` section of `buildSSHArgs`: pushed when `this.config.identity`
is truthy. -/
def identityArgs (c : SSHConnectConfig) : List String :=
  match c.identity with
  | none => []
  | some i => if i = "" then [] else ["-i", i]

/-- The `-p` section of `buildSSHArgs`: pushed when `this.config.port` is
truthy and not 22. -/
def portArgs (c : SSHConnectConfig) : List String :=
  match c.port with
  | none => []
  | some p => if p = 0 then [] else if p = 22 then [] else ["-p", Nat.repr p]

/-- The destination argument: `user@host` when `this.config.username` is
truthy, bare `host` otherwise. -/
def destination (c : SSHConnectConfig) : String :=
  match c.username with
  | none => c.host
  | some u => if u = "" then c.host else u ++ "@" ++ c.host

/-- `SSHConnection.buildSSHArgs`. -/
def buildSSHArgs (c : SSHConnectConfig) : List String :=
  baseArgs c ++ identityArgs c ++ portArgs c
    ++ c.sshOptions ++ [destination c]

/-- Does an argument token mention OpenSSH batch (non-interactive) mode? -/
def isBatchModeArg (a : String) : Bool :=
  strContains a "BatchMode"

/-- Claim C1 exactly as the spec states it: the argument vector always
contains the connection-timeout option, the two keep-alive options, a
batch-mode option and `-T`; `-i` appears exactly when an identity is
configured; `-p` appears exactly once when the port differs from 22 and
never when it is 22. -/
def claimC1 (c : SSHConnectConfig) : Prop :=
  ("ConnectTimeout=" ++ optNat c.connectTimeout) ∈ buildSSHArgs c ∧
  "ServerAliveInterval=60" ∈ buildSSHArgs c ∧
  "ServerAliveCountMax=3" ∈ buildSSHArgs c ∧
  (buildSSHArgs c).any isBatchModeArg = true ∧
  "-T" ∈ buildSSHArgs c ∧
  (strTruthy c.identity = true ↔ "-i" ∈ buildSSHArgs c) ∧
  (c.port = some 22 → (buildSSHArgs c).count "-p" = 0) ∧
  (c.port ≠ some 22 → (buildSSHArgs c).count "-p" = 1)

/-- A representative configuration used to refute the batch-mode part of
claim C1. -/
def c1ExampleConfig : SSHConnectConfig where
  host := "example.com"
  port := some 22
  username := some "alice"
  identity := none
  connectTimeout := some 60
  sshOptions := []

/-- One emission performed by the overridden `emit`: an event name together
with the listener-argument list. -/
inductive EmitArg where
  | statusArg (s : String)
  | clientArg
  | payloadArg (p : String)
  deriving DecidableEq, Repr

/-- `SSHConnection.emit(channel, status, payload)`: first
`super.emit(channel, status, this, payload)`, then
`super.emit(channel ++ ":" ++ status, this, payload)`. -/
def emitEvents (channel status payload : String) : List (String × List EmitArg) :=
  [(channel, [EmitArg.statusArg status, EmitArg.clientArg, EmitArg.payloadArg payload]),
   (channel ++ ":" ++ status, [EmitArg.clientArg, EmitArg.payloadArg payload])]

/-- Claim C8 exactly as the spec states it: both the bare channel and the
compound `channel:status` name receive the same `(client, payload)`
argument list. -/
def claimC8 (channel status payload : String) : Prop :=
  emitEvents channel status payload =
    [(channel, [EmitArg.clientArg, EmitArg.payloadArg payload]),
     (channel ++ ":" ++ status, [EmitArg.clientArg, EmitArg.payloadArg payload])]

/-- Is the `-p` section of the argument vector non-empty?  True exactly when
the configured port is set, non-zero and different from 22. -/
def portActive (c : SSHConnectConfig) : Bool :=
  match c.port with
  | none => false
  | some p => !(p = 0) && !(p = 22)

lemma strData_append (a b : String) : (a ++ b).data = a.data ++ b.data := rfl

lemma ctPrefix_ne (x a : String) (ha : a.data.length < 15) :
    "ConnectTimeout=" ++ x ≠ a := by
  intro h
  have hl : ("ConnectTimeout=" ++ x).data.length = 15 + x.data.length := by
    rw [strData_append, List.length_append]
    rfl
  rw [h] at hl
  omega

lemma digitChar_ne_dash (m : Nat) : Nat.digitChar m ≠ '-' := by
  by_cases hlt : m < 16
  · interval_cases m <;> decide
  · intro h
    unfold Nat.digitChar at h
    rw [if_neg (show ¬ m = 0 by omega), if_neg (show ¬ m = 1 by omega),
      if_neg (show ¬ m = 2 by omega), if_neg (show ¬ m = 3 by omega),
      if_neg (show ¬ m = 4 by omega), if_neg (show ¬ m = 5 by omega),
      if_neg (show ¬ m = 6 by omega), if_neg (show ¬ m = 7 by omega),
      if_neg (show ¬ m = 8 by omega), if_neg (show ¬ m = 9 by omega),
      if_neg (show ¬ m = 10 by omega), if_neg (show ¬ m = 11 by omega),
      if_neg (show ¬ m = 12 by omega), if_neg (show ¬ m = 13 by omega),
      if_neg (show ¬ m = 14 by omega), if_neg (show ¬ m = 15 by omega)] at h
    exact absurd h (by decide)

lemma toDigitsCore_mem (b : Nat) :
    ∀ (f n : Nat) (l : List Char) (c : Char),
      c ∈ Nat.toDigitsCore b f n l → c ∈ l ∨ ∃ m, c = Nat.digitChar m := by
  intro f
  induction f with
  | zero => intro n l c h; exact Or.inl h
  | succ f ih =>
    intro n l c h
    unfold Nat.toDigitsCore at h
    by_cases hnb : n / b = 0
    · simp only [hnb, if_true] at h
      rcases List.mem_cons.mp h with h1 | h1
      · exact Or.inr ⟨n % b, h1⟩
      · exact Or.inl h1
    · simp only [hnb, if_false] at h
      rcases ih (n / b) (Nat.digitChar (n % b) :: l) c h with h2 | h2
      · rcases List.mem_cons.mp h2 with h3 | h3
        · exact Or.inr ⟨n % b, h3⟩
        · exact Or.inl h3
      · exact Or.inr h2

lemma dash_not_mem_natRepr (n : Nat) : '-' ∉ (Nat.repr n).data := by
  intro h
  have h2 : '-' ∈ Nat.toDigits 10 n := h
  rcases toDigitsCore_mem 10 (n + 1) n [] '-' h2 with h3 | ⟨m, h3⟩
  · exact absurd h3 (List.not_mem_nil '-')
  · exact digitChar_ne_dash m h3.symm

lemma natRepr_ne_p (n : Nat) : Nat.repr n ≠ "-p" := by
  intro h
  apply dash_not_mem_natRepr n
  rw [h]
  decide

lemma natRepr_ne_i (n : Nat) : Nat.repr n ≠ "-i" := by
  intro h
  apply dash_not_mem_natRepr n
  rw [h]
  decide

lemma baseArgs_count_zero (c : SSHConnectConfig) (a : String)
    (hlen : a.data.length < 15) (ho : a ≠ "-o")
    (h1 : a ≠ "ServerAliveInterval=60") (h2 : a ≠ "ServerAliveCountMax=3")
    (h3 : a ≠ "EnableEscapeCommandline=yes") (hT : a ≠ "-T") :
    (baseArgs c).count a = 0 := by
  apply List.count_eq_zero_of_not_mem
  intro hmem
  simp only [baseArgs, List.mem_cons, List.not_mem_nil, or_false] at hmem
  rcases hmem with h | h | h | h | h | h | h | h | h
  · exact ho h
  · exact ctPrefix_ne (optNat c.connectTimeout) a hlen h.symm
  · exact ho h
  · exact h1 h
  · exact ho h
  · exact h2 h
  · exact ho h
  · exact h3 h
  · exact hT h

lemma identityArgs_count_p (c : SSHConnectConfig) (hip : c.identity ≠ some "-p") :
    (identityArgs c).count "-p" = 0 := by
  apply List.count_eq_zero_of_not_mem
  intro hmem
  rcases hid : c.identity with _ | i
  · simp [identityArgs, hid] at hmem
  · by_cases hi : i = ""
    · simp [identityArgs, hid, hi] at hmem
    · simp only [identityArgs, hid, if_neg hi, List.mem_cons,
        List.not_mem_nil, or_false] at hmem
      rcases hmem with h | h
      · exact absurd h (by decide)
      · rw [hid, h] at hip; exact hip rfl

lemma identityArgs_count_i (c : SSHConnectConfig) (hii : c.identity ≠ some "-i") :
    (identityArgs c).count "-i" = (if strTruthy c.identity then 1 else 0) := by
  rcases hid : c.identity with _ | i
  · simp [identityArgs, strTruthy, hid]
  · by_cases hi : i = ""
    · simp [identityArgs, strTruthy, hid, hi]
    · have hine : i ≠ "-i" := by
        intro h; rw [hid, h] at hii; exact hii rfl
      simp [identityArgs, strTruthy, hid, hi, List.count_cons, hine]

lemma portArgs_count_p (c : SSHConnectConfig) :
    (portArgs c).count "-p" = (if portActive c then 1 else 0) := by
  rcases hp : c.port with _ | p
  · simp [portArgs, portActive, hp]
  · by_cases h0 : p = 0
    · simp [portArgs, portActive, hp, h0]
    · by_cases h22 : p = 22
      · simp [portArgs, portActive, hp, h0, h22]
      · simp [portArgs, portActive, hp, h0, h22, List.count_cons, natRepr_ne_p p]

lemma portArgs_count_i (c : SSHConnectConfig) :
    (portArgs c).count "-i" = 0 := by
  apply List.count_eq_zero_of_not_mem
  intro hmem
  rcases hp : c.port with _ | p
  · simp [portArgs, hp] at hmem
  · by_cases h0 : p = 0
    · simp [portArgs, hp, h0] at hmem
    · by_cases h22 : p = 22
      · simp [portArgs, hp, h0, h22] at hmem
      · simp only [portArgs, hp, if_neg h0, if_neg h22, List.mem_cons,
          List.not_mem_nil, or_false] at hmem
        rcases hmem with h | h
        · exact absurd h (by decide)
        · exact natRepr_ne_i p h.symm

lemma buildSSHArgs_concat (c : SSHConnectConfig) :
    buildSSHArgs c =
      (baseArgs c ++ identityArgs c ++ portArgs c ++ c.sshOptions)
        ++ [destination c] := by
  simp [buildSSHArgs, List.append_assoc]

/-- C1 (counterexample): on a representative configuration the built
argument vector contains no batch-mode option at all, refuting the claim
that batch (non-interactive) mode is always included. -/
theorem c1_claim_counterexample : ¬ claimC1 c1ExampleConfig := by
  unfold claimC1
  decide

/-- C1 (amended): the argument vector always includes the
connection-timeout option, `ServerAliveInterval=60`,
`ServerAliveCountMax=3`, `EnableEscapeCommandline=yes` (not batch mode) and
`-T`; under non-interference hypotheses on the free-form fields it contains
`-i` exactly when an identity is configured (non-empty) and `-p` exactly
once when the port is set, non-zero and different from 22, never otherwise;
the extra options come after the fixed sections and the destination
(`user@host` for a truthy username, bare `host` otherwise) is last. -/
theorem c1_amended_args_contract (c : SSHConnectConfig)
    (hop : "-p" ∉ c.sshOptions) (hoi : "-i" ∉ c.sshOptions)
    (hdp : destination c ≠ "-p") (hdi : destination c ≠ "-i")
    (hip : c.identity ≠ some "-p") (hii : c.identity ≠ some "-i") :
    ("ConnectTimeout=" ++ optNat c.connectTimeout) ∈ buildSSHArgs c ∧
    "ServerAliveInterval=60" ∈ buildSSHArgs c ∧
    "ServerAliveCountMax=3" ∈ buildSSHArgs c ∧
    "EnableEscapeCommandline=yes" ∈ buildSSHArgs c ∧
    "-T" ∈ buildSSHArgs c ∧
    (buildSSHArgs c).count "-i" = (if strTruthy c.identity then 1 else 0) ∧
    (buildSSHArgs c).count "-p" = (if portActive c then 1 else 0) ∧
    (∀ p, c.port = some p → p ≠ 0 → p ≠ 22 → portArgs c = ["-p", Nat.repr p]) ∧
    (buildSSHArgs c).dropLast =
      baseArgs c ++ identityArgs c ++ portArgs c ++ c.sshOptions ∧
    (buildSSHArgs c).getLast? = some (destination c) ∧
    (∀ u, c.username = some u → u ≠ "" → destination c = u ++ "@" ++ c.host) ∧
    (strTruthy c.username = false → destination c = c.host) := by
  refine ⟨?_, ?_, ?_, ?_, ?_, ?_, ?_, ?_, ?_, ?_, ?_, ?_⟩
  · simp [buildSSHArgs, baseArgs]
  · simp [buildSSHArgs, baseArgs]
  · simp [buildSSHArgs, baseArgs]
  · simp [buildSSHArgs, baseArgs]
  · simp [buildSSHArgs, baseArgs]
  · rw [buildSSHArgs_concat]
    simp only [List.count_append]
    rw [baseArgs_count_zero c "-i" (by decide) (by decide) (by decide)
      (by decide) (by decide) (by decide)]
    rw [identityArgs_count_i c hii, portArgs_count_i c]
    rw [List.count_eq_zero_of_not_mem hoi]
    have hd : List.count "-i" [destination c] = 0 :=
      List.count_eq_zero_of_not_mem (by
        intro h
        rcases List.mem_cons.mp h with h1 | h1
        · exact hdi h1.symm
        · exact List.not_mem_nil _ h1)
    rw [hd]
    omega
  · rw [buildSSHArgs_concat]
    simp only [List.count_append]
    rw [baseArgs_count_zero c "-p" (by decide) (by decide) (by decide)
      (by decide) (by decide) (by decide)]
    rw [identityArgs_count_p c hip, portArgs_count_p c]
    rw [List.count_eq_zero_of_not_mem hop]
    have hd : List.count "-p" [destination c] = 0 :=
      List.count_eq_zero_of_not_mem (by
        intro h
        rcases List.mem_cons.mp h with h1 | h1
        · exact hdp h1.symm
        · exact List.not_mem_nil _ h1)
    rw [hd]
    omega
  · intro p hp h0 h22
    simp [portArgs, hp, h0, h22]
  · rw [buildSSHArgs_concat, List.dropLast_concat, List.append_assoc,
      List.append_assoc]
  · rw [buildSSHArgs_concat, List.getLast?_concat]
  · intro u hu hune
    simp [destination, hu, hune]
  · intro hu
    rcases hun : c.username with _ | u
    · simp [destination, hun]
    · rw [hun] at hu
      simp only [strTruthy, Bool.not_eq_true'] at hu
      have hue : u = "" := by
        by_cases h : u = ""
        · exact h
        · simp [h] at hu
      simp [destination, hun, hue]

/-- C1 (witness): the amended argument contract applied to a concrete
configuration with identity, non-default port, extra options and
username. -/
theorem c1_amended_args_contract_witness :
    ("ConnectTimeout=" ++ optNat (some 30)) ∈
      buildSSHArgs ⟨"example.com", some 2222, some "alice", some "/id", some 30, ["-v"]⟩ ∧
    (buildSSHArgs ⟨"example.com", some 2222, some "alice", some "/id", some 30, ["-v"]⟩).count "-p" = 1 := by
  have h := c1_amended_args_contract
    ⟨"example.com", some 2222, some "alice", some "/id", some 30, ["-v"]⟩
    (by decide) (by decide) (by decide) (by decide) (by decide) (by decide)
  exact ⟨h.1, by rw [h.2.2.2.2.2.2.1]; decide⟩

/-- C8 (counterexample): on channel `tunnel`, status `connect` and a sample
payload, the bare-channel emission carries the status string as an extra
leading argument, so the two emissions do not carry the same argument
list. -/
theorem c8_claim_counterexample : ¬ claimC8 "tunnel" "connect" "payload" := by
  unfold claimC8
  decide

/-- C8 (amended): every transition is emitted on the bare channel and on
the compound `channel:status` name; both argument lists end with
`(client, payload)`, but the bare-channel emission carries the status
string as an extra leading argument while the compound emission carries
exactly `(client, payload)`. -/
theorem c8_amended_emit_contract (channel status payload : String) :
    (emitEvents channel status payload).map Prod.fst =
      [channel, channel ++ ":" ++ status] ∧
    (∀ e ∈ emitEvents channel status payload,
      [EmitArg.clientArg, EmitArg.payloadArg payload] <:+ e.2) ∧
    (emitEvents channel status payload).head?.map Prod.snd =
      some [EmitArg.statusArg status, EmitArg.clientArg, EmitArg.payloadArg payload] ∧
    (emitEvents channel status payload).getLast?.map Prod.snd =
      some [EmitArg.clientArg, EmitArg.payloadArg payload] := by
  refine ⟨rfl, ?_, rfl, rfl⟩
  intro e he
  simp only [emitEvents, List.mem_cons, List.not_mem_nil, or_false] at he
  rcases he with h | h
  · rw [h]
    exact ⟨[EmitArg.statusArg status], rfl⟩
  · rw [h]

lemma strAppend_empty (a : String) : a ++ "" = a :=
  String.ext (by rw [strData_append]; exact List.append_nil a.data)

lemma strEmpty_append (a : String) : "" ++ a = a :=
  String.ext (by rw [strData_append]; exact List.nil_append a.data)

lemma strAppend_assoc (a b c : String) : a ++ b ++ c = a ++ (b ++ c) :=
  String.ext (by simp only [strData_append]; exact List.append_assoc a.data b.data c.data)

/-- A destination as decoded by the external `SSHDestination` parser. -/
structure SSHDest where
  hostname : String
  port : Option Nat
  user : Option String
  deriving DecidableEq, Repr

/-- JavaScript `a || b` on a possibly-undefined string. -/
def jsOrStr (a : Option String) (b : String) : String :=
  match a with
  | none => b
  | some s => if s = "" then b else s

/-- The username expression of the resolver's connection construction:
`sshDest.user || process.env["USER"] || ""`. -/
def resolverUsername (d : SSHDest) (envUser : Option String) : String :=
  jsOrStr d.user (jsOrStr envUser "")

/-- The option object the resolver passes to the `SSHConnection`
constructor: keys `host`, `port`, `username` and `connectTimeout` are all
explicitly present (so `port` can be present with value `undefined`). -/
def resolverConnOptions (d : SSHDest) (connectTimeout : Nat)
    (envUser : Option String) : SSHConnectOptions where
  host := d.hostname
  port := some d.port
  username := some (some (resolverUsername d envUser))
  identity := none
  connectTimeout := some (some connectTimeout)
  sshOptions := none

/-- C10: the constructor's `Object.assign` merge applies the defaults
(port 22, connect timeout 60) only to keys absent from the options object;
a key present with value `undefined` overwrites the default, so the
resolver's connection for a destination without an explicit port has an
undefined merged port, and the `-p` section of the argument vector is empty
for every falsy port (undefined or 0), not only for 22. -/
theorem c10_defaults_only_absent_keys
    (o1 o2 : SSHConnectOptions) (d : SSHDest) (ct : Nat)
    (envUser : Option String) (c : SSHConnectConfig)
    (h1p : o1.port = none) (h1t : o1.connectTimeout = none)
    (h2p : o2.port = some none)
    (hfalsy : natTruthy c.port = false) :
    (mergeConfig o1).port = some 22 ∧
    (mergeConfig o1).connectTimeout = some 60 ∧
    (mergeConfig o2).port = none ∧
    (mergeConfig (resolverConnOptions d ct envUser)).port = d.port ∧
    (d.port = none → (mergeConfig (resolverConnOptions d ct envUser)).port ≠ some 22) ∧
    portArgs c = [] ∧
    buildSSHArgs c = baseArgs c ++ identityArgs c ++ c.sshOptions ++ [destination c] := by
  have hport : portArgs c = [] := by
    rcases hp : c.port with _ | p
    · simp [portArgs, hp]
    · have h0 : p = 0 := by
        unfold natTruthy at hfalsy
        rw [hp] at hfalsy
        by_cases h : p = 0
        · exact h
        · simp [h] at hfalsy
      simp [portArgs, hp, h0]
  refine ⟨?_, ?_, ?_, ?_, ?_, hport, ?_⟩
  · simp [mergeConfig, h1p]
  · simp [mergeConfig, h1t]
  · simp [mergeConfig, h2p]
  · simp [mergeConfig, resolverConnOptions]
  · intro hd
    simp [mergeConfig, resolverConnOptions, hd]
  · rw [buildSSHArgs, hport]
    simp

/-- C10 (witness): evaluating the merge on a concrete options object with
the port key absent, and on the resolver's options for a destination
without a port. -/
theorem c10_defaults_only_absent_keys_witness :
    (mergeConfig ⟨"example.com", none, none, none, none, none⟩).port = some 22 ∧
    (mergeConfig (resolverConnOptions ⟨"example.com", none, some "alice"⟩ 60 none)).port = none ∧
    portArgs ⟨"example.com", none, some "alice", none, some 60, []⟩ = [] := by
  have h := c10_defaults_only_absent_keys
    ⟨"example.com", none, none, none, none, none⟩
    ⟨"example.com", some none, none, none, none, none⟩
    ⟨"example.com", none, some "alice"⟩ 60 none
    ⟨"example.com", none, some "alice", none, some 60, []⟩
    rfl rfl rfl rfl
  refine ⟨h.1, ?_, h.2.2.2.2.2.1⟩
  rw [h.2.2.2.1]

/-- Accumulated `stdout` / `stderr` text of a child process, as the
`exec` and `execAndWaitUntil` promises resolve it. -/
structure ExecOutput where
  stdout : String
  stderr : String
  deriving DecidableEq, Repr

/-- The two rejection shapes of `exec`: the command-failed error built in
the `close` handler (carrying exit code and accumulated output) and the
spawn error forwarded by the `error` handler. -/
inductive ExecError where
  | commandFailed (code : Option Int) (stdout stderr : String)
  | spawnFailed (msg : String)
  deriving DecidableEq, Repr

/-- One event delivered by the event loop for a spawned child process. -/
inductive ProcEvent where
  | outData (s : String)
  | errData (s : String)
  | closed (code : Option Int)
  | spawnErr (msg : String)
  deriving DecidableEq, Repr

/-- A promise settles at most once; later settlement attempts are
ignored. -/
def settleOnce {α : Type} (st : Option α) (v : α) : Option α :=
  match st with
  | none => some v
  | some w => some w

instance exceptDecidableEq {α β : Type} [DecidableEq α] [DecidableEq β] :
    DecidableEq (Except α β) := fun x y =>
  match x, y with
  | Except.ok a, Except.ok b =>
      if h : a = b then isTrue (by rw [h])
      else isFalse (by intro hc; injection hc; exact h ‹_›)
  | Except.ok _, Except.error _ => isFalse (by intro hc; exact Except.noConfusion hc)
  | Except.error _, Except.ok _ => isFalse (by intro hc; exact Except.noConfusion hc)
  | Except.error a, Except.error b =>
      if h : a = b then isTrue (by rw [h])
      else isFalse (by intro hc; injection hc; exact h ‹_›)

/-- State of one `exec` invocation: accumulated output and the settled
value of its promise, if any. -/
structure ExecState where
  stdout : String
  stderr : String
  settled : Option (Except ExecError ExecOutput)
  deriving DecidableEq, Repr

/-- The event handlers installed by `SSHConnection.exec`: `data` handlers
accumulate, `close` resolves on exit code 0 or `ignoreExitCode` and rejects
otherwise, `error` rejects with the spawn error. -/
def execStep (ignoreExitCode : Bool) (st : ExecState) : ProcEvent → ExecState
  | ProcEvent.outData s => { st with stdout := st.stdout ++ s }
  | ProcEvent.errData s => { st with stderr := st.stderr ++ s }
  | ProcEvent.closed code =>
      if code = some 0 ∨ ignoreExitCode = true then
        { st with settled := settleOnce st.settled (Except.ok ⟨st.stdout, st.stderr⟩) }
      else
        { st with settled := settleOnce st.settled (Except.error (ExecError.commandFailed code st.stdout st.stderr)) }
  | ProcEvent.spawnErr m =>
      { st with settled := settleOnce st.settled (Except.error (ExecError.spawnFailed m)) }

def execInit : ExecState := ⟨"", "", none⟩

/-- Run `exec`'s handlers over an event-loop trace. -/
def execRun (ignoreExitCode : Bool) (evs : List ProcEvent) : ExecState :=
  evs.foldl (execStep ignoreExitCode) execInit

/-- Is the event an incremental stdout/stderr chunk? -/
def isChunk : ProcEvent → Bool
  | ProcEvent.outData _ => true
  | ProcEvent.errData _ => true
  | ProcEvent.closed _ => false
  | ProcEvent.spawnErr _ => false

/-- The trace contains only incremental output chunks. -/
def chunkOnly (evs : List ProcEvent) : Prop :=
  ∀ e ∈ evs, isChunk e = true

instance chunkOnlyDec (evs : List ProcEvent) : Decidable (chunkOnly evs) :=
  List.decidableBAll (fun e => isChunk e = true) evs

/-- In-order concatenation of the stdout chunks of a trace. -/
def outStr : List ProcEvent → String
  | [] => ""
  | ProcEvent.outData s :: evs => s ++ outStr evs
  | _ :: evs => outStr evs

/-- In-order concatenation of the stderr chunks of a trace. -/
def errStr : List ProcEvent → String
  | [] => ""
  | ProcEvent.errData s :: evs => s ++ errStr evs
  | _ :: evs => errStr evs

lemma exec_foldl_chunks (i : Bool) :
    ∀ (evs : List ProcEvent) (st : ExecState), chunkOnly evs →
      evs.foldl (execStep i) st =
        ⟨st.stdout ++ outStr evs, st.stderr ++ errStr evs, st.settled⟩ := by
  intro evs
  induction evs with
  | nil =>
    intro st _
    simp [outStr, errStr, strAppend_empty]
  | cons e evs ih =>
    intro st hch
    have hche : chunkOnly evs := fun x hx => hch x (List.mem_cons_of_mem e hx)
    have hce : isChunk e = true := hch e (List.mem_cons_self e evs)
    cases e with
    | outData s =>
      rw [List.foldl_cons, ih _ hche]
      simp [execStep, outStr, errStr, strAppend_assoc]
    | errData s =>
      rw [List.foldl_cons, ih _ hche]
      simp [execStep, outStr, errStr, strAppend_assoc]
    | closed code => simp [isChunk] at hce
    | spawnErr m => simp [isChunk] at hce

/-- C6: over any trace of output chunks followed by process exit, `exec`
resolves with the accumulated output when the exit code is 0 or
`ignoreExitCode` was passed, and rejects with the command-failed error
carrying the exit code and output otherwise; a spawn error rejects the
promise with that error. -/
theorem c6_exec_exit_policy (i : Bool) (evs : List ProcEvent)
    (code : Option Int) (m : String) (hch : chunkOnly evs) :
    (execRun i (evs ++ [ProcEvent.closed code])).settled =
      some (if code = some 0 ∨ i = true then
              Except.ok ⟨outStr evs, errStr evs⟩
            else
              Except.error (ExecError.commandFailed code (outStr evs) (errStr evs))) ∧
    (execRun i (evs ++ [ProcEvent.spawnErr m])).settled =
      some (Except.error (ExecError.spawnFailed m)) := by
  have hrun : evs.foldl (execStep i) execInit = ⟨outStr evs, errStr evs, none⟩ := by
    rw [exec_foldl_chunks i evs execInit hch]
    simp [execInit, strEmpty_append]
  constructor
  · rw [execRun, List.foldl_append, hrun]
    by_cases hc : code = some 0 ∨ i = true
    · simp [execStep, hc, settleOnce]
    · simp [execStep, hc, settleOnce]
  · rw [execRun, List.foldl_append, hrun]
    simp [execStep, settleOnce]

/-- C6 (witness): a command producing output on both streams that exits
with code 1 rejects with the command-failed error unless `ignoreExitCode`
is set, in which case it resolves; a spawn error rejects. -/
theorem c6_exec_exit_policy_witness :
    (execRun false ([ProcEvent.outData "a", ProcEvent.errData "b"]
        ++ [ProcEvent.closed (some 1)])).settled =
      some (Except.error (ExecError.commandFailed (some 1) "a" "b")) ∧
    (execRun true ([ProcEvent.outData "a", ProcEvent.errData "b"]
        ++ [ProcEvent.closed (some 1)])).settled =
      some (Except.ok ⟨"a", "b"⟩) := by
  have h1 := c6_exec_exit_policy false
    [ProcEvent.outData "a", ProcEvent.errData "b"] (some 1) "x" (by decide)
  have h2 := c6_exec_exit_policy true
    [ProcEvent.outData "a", ProcEvent.errData "b"] (some 1) "x" (by decide)
  constructor
  · rw [h1.1]
    decide
  · rw [h2.1]
    decide

/-- State of one `execAndWaitUntil` invocation: accumulated output, the
`resolved` flag of the source, whether the process was ever killed by this
operation (it never is), and the settled value of the promise. -/
structure WaitState where
  stdout : String
  stderr : String
  resolved : Bool
  killed : Bool
  settled : Option (Except ExecError ExecOutput)
  deriving DecidableEq, Repr

/-- The event handlers installed by `SSHConnection.execAndWaitUntil`:
after appending each chunk the tester runs on the accumulated pair and, if
it returns true and the `resolved` flag is unset, sets the flag and
resolves; `close` and `error` apply the `exec` policy only when the flag is
unset.  No handler kills the process. -/
def waitStep (t : String → String → Bool) (i : Bool) (st : WaitState) :
    ProcEvent → WaitState
  | ProcEvent.outData s =>
      if st.resolved = false ∧ t (st.stdout ++ s) st.stderr = true then
        { st with stdout := st.stdout ++ s, resolved := true,
                  settled := settleOnce st.settled (Except.ok ⟨st.stdout ++ s, st.stderr⟩) }
      else { st with stdout := st.stdout ++ s }
  | ProcEvent.errData s =>
      if st.resolved = false ∧ t st.stdout (st.stderr ++ s) = true then
        { st with stderr := st.stderr ++ s, resolved := true,
                  settled := settleOnce st.settled (Except.ok ⟨st.stdout, st.stderr ++ s⟩) }
      else { st with stderr := st.stderr ++ s }
  | ProcEvent.closed code =>
      if st.resolved = true then st
      else if code = some 0 ∨ i = true then
        { st with settled := settleOnce st.settled (Except.ok ⟨st.stdout, st.stderr⟩) }
      else
        { st with settled := settleOnce st.settled (Except.error (ExecError.commandFailed code st.stdout st.stderr)) }
  | ProcEvent.spawnErr m =>
      if st.resolved = true then st
      else { st with settled := settleOnce st.settled (Except.error (ExecError.spawnFailed m)) }

def waitInit : WaitState := ⟨"", "", false, false, none⟩

/-- Run `execAndWaitUntil`'s handlers over an event-loop trace. -/
def waitRun (t : String → String → Bool) (i : Bool) (evs : List ProcEvent) : WaitState :=
  evs.foldl (waitStep t i) waitInit

lemma waitStep_resolved (t : String → String → Bool) (i : Bool)
    (st : WaitState) (e : ProcEvent) (h : st.resolved = true) :
    (waitStep t i st e).resolved = true ∧ (waitStep t i st e).settled = st.settled := by
  cases e <;> simp [waitStep, h]

lemma waitFoldl_resolved (t : String → String → Bool) (i : Bool) :
    ∀ (evs : List ProcEvent) (st : WaitState), st.resolved = true →
      (evs.foldl (waitStep t i) st).resolved = true ∧
      (evs.foldl (waitStep t i) st).settled = st.settled := by
  intro evs
  induction evs with
  | nil => intro st h; exact ⟨h, rfl⟩
  | cons e evs ih =>
    intro st h
    rw [List.foldl_cons]
    obtain ⟨h1, h2⟩ := waitStep_resolved t i st e h
    obtain ⟨h3, h4⟩ := ih _ h1
    exact ⟨h3, h4.trans h2⟩

lemma waitStep_killed (t : String → String → Bool) (i : Bool)
    (st : WaitState) (e : ProcEvent) :
    (waitStep t i st e).killed = st.killed := by
  cases e <;> simp only [waitStep] <;> repeat' split
  all_goals rfl

lemma waitFoldl_killed (t : String → String → Bool) (i : Bool) :
    ∀ (evs : List ProcEvent) (st : WaitState),
      (evs.foldl (waitStep t i) st).killed = st.killed := by
  intro evs
  induction evs with
  | nil => intro st; rfl
  | cons e evs ih =>
    intro st
    rw [List.foldl_cons, ih _, waitStep_killed]

lemma waitRun_append (t : String → String → Bool) (i : Bool)
    (l1 l2 : List ProcEvent) :
    waitRun t i (l1 ++ l2) = l2.foldl (waitStep t i) (waitRun t i l1) := by
  rw [waitRun, waitRun, List.foldl_append]

lemma waitFoldl_chunks_unresolved (t : String → String → Bool) (i : Bool) :
    ∀ (evs : List ProcEvent) (st : WaitState), chunkOnly evs →
      (evs.foldl (waitStep t i) st).resolved = false →
      (evs.foldl (waitStep t i) st).settled = st.settled ∧ st.resolved = false := by
  intro evs
  induction evs with
  | nil => intro st _ h; exact ⟨rfl, h⟩
  | cons e evs ih =>
    intro st hch hfin
    have hche : chunkOnly evs := fun x hx => hch x (List.mem_cons_of_mem e hx)
    have hce : isChunk e = true := hch e (List.mem_cons_self e evs)
    rw [List.foldl_cons] at hfin ⊢
    have hr : (waitStep t i st e).resolved = false := by
      rcases hb : (waitStep t i st e).resolved with _ | _
      · rfl
      · rw [(waitFoldl_resolved t i evs _ hb).1] at hfin
        exact absurd hfin (by simp)
    cases e with
    | outData s =>
      by_cases hc : st.resolved = false ∧ t (st.stdout ++ s) st.stderr = true
      · have : (waitStep t i st (ProcEvent.outData s)).resolved = true := by
          simp only [waitStep]
          rw [if_pos hc]
        rw [this] at hr
        exact absurd hr (by simp)
      · have hstep : waitStep t i st (ProcEvent.outData s) =
            { st with stdout := st.stdout ++ s } := by
          simp only [waitStep]
          rw [if_neg hc]
        rw [hstep] at hfin ⊢
        obtain ⟨hset, hres0⟩ := ih _ hche hfin
        exact ⟨hset, hres0⟩
    | errData s =>
      by_cases hc : st.resolved = false ∧ t st.stdout (st.stderr ++ s) = true
      · have : (waitStep t i st (ProcEvent.errData s)).resolved = true := by
          simp only [waitStep]
          rw [if_pos hc]
        rw [this] at hr
        exact absurd hr (by simp)
      · have hstep : waitStep t i st (ProcEvent.errData s) =
            { st with stderr := st.stderr ++ s } := by
          simp only [waitStep]
          rw [if_neg hc]
        rw [hstep] at hfin ⊢
        obtain ⟨hset, hres0⟩ := ih _ hche hfin
        exact ⟨hset, hres0⟩
    | closed code => simp [isChunk] at hce
    | spawnErr m => simp [isChunk] at hce

/-- C7: if the tester has not fired over a trace of chunks, then (a) a
further stdout or stderr chunk on which the tester returns true settles the
promise exactly once with the accumulated output at that point — no later
event changes the settled value, the process is never killed — and (b) if
instead the process closes before the tester ever fired, the promise
follows `exec`'s exit-code policy on the output accumulated so far. -/
theorem c7_execAndWaitUntil_contract (t : String → String → Bool) (i : Bool)
    (evs rest : List ProcEvent) (s : String) (code : Option Int)
    (hch : chunkOnly evs) (hres : (waitRun t i evs).resolved = false) :
    (t ((waitRun t i evs).stdout ++ s) (waitRun t i evs).stderr = true →
      (waitRun t i (evs ++ ProcEvent.outData s :: rest)).settled =
          some (Except.ok ⟨(waitRun t i evs).stdout ++ s, (waitRun t i evs).stderr⟩) ∧
      (waitRun t i (evs ++ ProcEvent.outData s :: rest)).resolved = true) ∧
    (t (waitRun t i evs).stdout ((waitRun t i evs).stderr ++ s) = true →
      (waitRun t i (evs ++ ProcEvent.errData s :: rest)).settled =
          some (Except.ok ⟨(waitRun t i evs).stdout, (waitRun t i evs).stderr ++ s⟩) ∧
      (waitRun t i (evs ++ ProcEvent.errData s :: rest)).resolved = true) ∧
    (waitRun t i (evs ++ ProcEvent.outData s :: rest)).killed = false ∧
    (waitRun t i (evs ++ [ProcEvent.closed code])).settled =
      some (if code = some 0 ∨ i = true then
              Except.ok ⟨(waitRun t i evs).stdout, (waitRun t i evs).stderr⟩
            else
              Except.error (ExecError.commandFailed code (waitRun t i evs).stdout (waitRun t i evs).stderr)) := by
  have hsettled : (waitRun t i evs).settled = none :=
    (waitFoldl_chunks_unresolved t i evs waitInit hch hres).1
  refine ⟨?_, ?_, ?_, ?_⟩
  · intro htest
    rw [waitRun_append, List.foldl_cons]
    have hstep_res :
        (waitStep t i (waitRun t i evs) (ProcEvent.outData s)).resolved = true := by
      simp only [waitStep]
      rw [if_pos ⟨hres, htest⟩]
    have hstep_set :
        (waitStep t i (waitRun t i evs) (ProcEvent.outData s)).settled =
          some (Except.ok ⟨(waitRun t i evs).stdout ++ s, (waitRun t i evs).stderr⟩) := by
      simp only [waitStep]
      rw [if_pos ⟨hres, htest⟩]
      show settleOnce (waitRun t i evs).settled _ = _
      rw [hsettled]
      rfl
    obtain ⟨h1, h2⟩ := waitFoldl_resolved t i rest _ hstep_res
    exact ⟨h2.trans hstep_set, h1⟩
  · intro htest
    rw [waitRun_append, List.foldl_cons]
    have hstep_res :
        (waitStep t i (waitRun t i evs) (ProcEvent.errData s)).resolved = true := by
      simp only [waitStep]
      rw [if_pos ⟨hres, htest⟩]
    have hstep_set :
        (waitStep t i (waitRun t i evs) (ProcEvent.errData s)).settled =
          some (Except.ok ⟨(waitRun t i evs).stdout, (waitRun t i evs).stderr ++ s⟩) := by
      simp only [waitStep]
      rw [if_pos ⟨hres, htest⟩]
      show settleOnce (waitRun t i evs).settled _ = _
      rw [hsettled]
      rfl
    obtain ⟨h1, h2⟩ := waitFoldl_resolved t i rest _ hstep_res
    exact ⟨h2.trans hstep_set, h1⟩
  · rw [waitRun, waitFoldl_killed]
    rfl
  · rw [waitRun_append, List.foldl_cons, List.foldl_nil]
    simp only [waitStep]
    rw [if_neg (by rw [hres]; simp)]
    by_cases hc : code = some 0 ∨ i = true
    · rw [if_pos hc, if_pos hc]
      show settleOnce (waitRun t i evs).settled _ = _
      rw [hsettled]
      rfl
    · rw [if_neg hc, if_neg hc]
      show settleOnce (waitRun t i evs).settled _ = _
      rw [hsettled]
      rfl

/-- C7 (witness): with a tester that fires on the substring `READY`, the
promise resolves with the accumulated output as soon as `READY` appears,
and keeps that value although the process keeps producing output and later
exits. -/
theorem c7_execAndWaitUntil_contract_witness :
    (waitRun (fun so _ => strContains so "READY") false
        ([ProcEvent.outData "boot "] ++ ProcEvent.outData "READY" ::
          [ProcEvent.outData " more", ProcEvent.closed (some 0)])).settled =
      some (Except.ok ⟨"boot READY", ""⟩) := by
  have h := c7_execAndWaitUntil_contract (fun so _ => strContains so "READY") false
      [ProcEvent.outData "boot "] [ProcEvent.outData " more", ProcEvent.closed (some 0)]
      "READY" (some 0) (by decide) (by decide)
  have h2 := (h.1 (by decide)).1
  rw [h2]
  decide

/-- An event delivered for a spawned tunnel process before the 1-second
grace-window timer fires. -/
inductive TunEvent where
  | errData (s : String)
  | exited (code : Int)
  deriving DecidableEq, Repr

/-- The rejection shapes of a tunnel-establishment attempt. -/
inductive TunError where
  | fatalStderr (stderr : String)
  | exitedEarly (code : Option Int)
  deriving DecidableEq, Repr

/-- State of one `_startTunnelProcess` attempt: accumulated stderr, the
process exit code (if it exited), whether the stderr handler killed the
process, whether the map entry is still registered, which events were
emitted, and the settled value of the establishment promise. -/
structure TunProcState where
  stderr : String
  exitCode : Option Int
  killed : Bool
  registered : Bool
  connectedEmitted : Bool
  disconnectEmitted : Bool
  settled : Option (Except TunError Unit)
  deriving DecidableEq, Repr

/-- The fixed fatal-stderr patterns checked by the stderr handler. -/
def fatalPattern (s : String) : Bool :=
  strContains s "Address already in use" || strContains s "Permission denied"
    || strContains s "Connection refused"

/-- The `stderr` and `exit` handlers installed by `_startTunnelProcess`:
stderr accumulates and, on a fatal match, kills the process, deletes the
map entry and rejects; exit with non-zero code while still registered
emits disconnect and deletes the entry. -/
def tunStep (st : TunProcState) : TunEvent → TunProcState
  | TunEvent.errData s =>
      let se := st.stderr ++ s
      if fatalPattern se = true then
        { st with stderr := se, killed := true, registered := false,
                  settled := settleOnce st.settled (Except.error (TunError.fatalStderr se)) }
      else { st with stderr := se }
  | TunEvent.exited code =>
      if code ≠ 0 ∧ st.registered = true then
        { st with exitCode := some code, registered := false, disconnectEmitted := true }
      else { st with exitCode := some code }

/-- State right after spawning: entry registered, nothing emitted. -/
def tunInit : TunProcState := ⟨"", none, false, true, false, false, none⟩

/-- The 1-second `setTimeout` callback: if the process has not exited,
emit `connected` and resolve; otherwise reject with the exited-early error
only when the accumulated stderr is empty. -/
def tunTimer (st : TunProcState) : TunProcState :=
  match st.exitCode with
  | none =>
      { st with connectedEmitted := true, settled := settleOnce st.settled (Except.ok ()) }
  | some code =>
      if st.stderr = "" then
        { st with settled := settleOnce st.settled (Except.error (TunError.exitedEarly (some code))) }
      else st

/-- A full establishment attempt: pre-timer events, then the timer. -/
def tunRun (evs : List TunEvent) : TunProcState :=
  tunTimer (evs.foldl tunStep tunInit)

/-- Claim C3 exactly as the spec states it: after the grace window, a
still-alive process means `connected` is emitted and the promise resolves;
a process that exited within the window with no fatal-stderr rejection
already handled means the promise is rejected with the exited-early error
carrying the exit code. -/
def claimC3 (evs : List TunEvent) : Prop :=
  ((evs.foldl tunStep tunInit).exitCode = none →
    (tunRun evs).settled = some (Except.ok ()) ∧
    (tunRun evs).connectedEmitted = true) ∧
  ((evs.foldl tunStep tunInit).exitCode ≠ none →
    (evs.foldl tunStep tunInit).settled = none →
    (tunRun evs).settled =
      some (Except.error (TunError.exitedEarly (evs.foldl tunStep tunInit).exitCode)))

/-- C3 (code bug): a tunnel process that writes non-fatal stderr (for
example a warning) and then exits with code 1 inside the grace window is
never settled: the timer rejects only when the accumulated stderr is
empty, contradicting the claim (and the handler comment in the source)
that such an exit is rejected as exited-early.  The promise stays pending
forever. -/
theorem c3_grace_window_bug :
    ¬ claimC3 [TunEvent.errData "Warning: remote", TunEvent.exited 1] ∧
    ([TunEvent.errData "Warning: remote", TunEvent.exited 1].foldl tunStep tunInit).settled = none ∧
    (tunRun [TunEvent.errData "Warning: remote", TunEvent.exited 1]).settled = none := by
  refine ⟨?_, by decide, by decide⟩
  intro h
  exact absurd (h.2 (by decide) (by decide)) (by decide)

/-- `SSHTunnelConfig` as declared in the source. -/
structure SSHTunnelConfig where
  remoteAddr : Option String
  localPort : Option Nat
  remotePort : Option Nat
  remoteSocketPath : Option String
  name : Option String
  deriving DecidableEq, Repr

/-- The interpolation `remotePort || remoteSocketPath` of the fallback
name (a falsy remote port falls through to the socket path). -/
def remoteTag (t : SSHTunnelConfig) : String :=
  match t.remotePort with
  | some p => if p = 0 then optStr t.remoteSocketPath else Nat.repr p
  | none => optStr t.remoteSocketPath

/-- The name computed by `addTunnel`:
`name || remoteAddr@(remotePort || remoteSocketPath)`. -/
def computedName (t : SSHTunnelConfig) : String :=
  match t.name with
  | some n => if n = "" then optStr t.remoteAddr ++ "@" ++ remoteTag t else n
  | none => optStr t.remoteAddr ++ "@" ++ remoteTag t

/-- A value of the active-tunnel map: the spread tunnel config with the
resolved local port and the supervising process (identified by a spawn
ordinal). -/
structure ActiveTunnel where
  cfg : SSHTunnelConfig
  localPort : Nat
  procId : Nat
  deriving DecidableEq, Repr

/-- What one `addTunnel` call handed back: the already-active tunnel, or
the freshly spawned in-flight tunnel. -/
inductive AddResult where
  | existing (t : ActiveTunnel)
  | inFlight (t : ActiveTunnel)
  deriving DecidableEq, Repr

/-- State of one `SSHConnection` restricted to tunnel management: the
active-tunnel map, a spawn ordinal, the number of processes spawned,
the pending ephemeral-port listen callbacks, and each call's result. -/
structure ClientState where
  active : List (String × ActiveTunnel)
  nextProc : Nat
  spawnCount : Nat
  pendingCallbacks : List (Nat × String × SSHTunnelConfig)
  results : List (Nat × AddResult)
  deriving DecidableEq, Repr

/-- JavaScript property read `this.activeTunnels[name]`. -/
def lookupName (m : List (String × ActiveTunnel)) (k : String) : Option ActiveTunnel :=
  match m with
  | [] => none
  | (k2, v) :: rest => if k2 = k then some v else lookupName rest k

/-- JavaScript property write `this.activeTunnels[name] = tunnel`
(overwrites an existing entry). -/
def insertName (m : List (String × ActiveTunnel)) (k : String) (v : ActiveTunnel) :
    List (String × ActiveTunnel) :=
  match m with
  | [] => [(k, v)]
  | (k2, v2) :: rest => if k2 = k then (k2, v) :: rest else (k2, v2) :: insertName rest k v

/-- `_startTunnelProcess`: spawn the ssh process, build the tunnel object
and store it in the active-tunnel map under the computed name (without
re-checking the map), and hand the in-flight tunnel to the caller. -/
def startTunnelProcess (st : ClientState) (callId : Nat) (cfg : SSHTunnelConfig)
    (name : String) (port : Nat) : ClientState :=
  let t : ActiveTunnel := ⟨{ cfg with localPort := some port }, port, st.nextProc⟩
  { st with active := insertName st.active name t,
            nextProc := st.nextProc + 1,
            spawnCount := st.spawnCount + 1,
            results := (callId, AddResult.inFlight t) :: st.results }

def initClient : ClientState := ⟨[], 0, 0, [], []⟩

/-- The synchronous part of `addTunnel` / `_createTunnel`: compute the
name; if it is already active return the existing tunnel, otherwise
either start the process at the given local port (truthy `localPort`), or
schedule the ephemeral-port listen callback for a later event-loop turn
(`localPort` unset or 0). -/
def addTunnelSync (st : ClientState) (callId : Nat) (cfg : SSHTunnelConfig) : ClientState :=
  let name := computedName cfg
  let cfg2 := { cfg with name := some name }
  match lookupName st.active name with
  | some t => { st with results := (callId, AddResult.existing t) :: st.results }
  | none =>
    match cfg.localPort with
    | some p =>
        if p = 0 then
          { st with pendingCallbacks := st.pendingCallbacks ++ [(callId, name, cfg2)] }
        else startTunnelProcess st callId cfg2 name p
    | none => { st with pendingCallbacks := st.pendingCallbacks ++ [(callId, name, cfg2)] }

/-- One `addTunnel` call run to completion with no interleaving: the
synchronous part and, in the ephemeral branch, its listen callback (the OS
picked `ephPort`). -/
def runSeqCall (st : ClientState) (callId : Nat) (cfg : SSHTunnelConfig)
    (ephPort : Nat) : ClientState :=
  let name := computedName cfg
  let cfg2 := { cfg with name := some name }
  match lookupName st.active name with
  | some t => { st with results := (callId, AddResult.existing t) :: st.results }
  | none =>
    match cfg.localPort with
    | some p => if p = 0 then startTunnelProcess st callId cfg2 name ephPort
                else startTunnelProcess st callId cfg2 name p
    | none => startTunnelProcess st callId cfg2 name ephPort

/-- Two near-simultaneous `addTunnel` calls with ephemeral local ports:
both synchronous halves run before either listen callback fires, then the
two callbacks run in order. -/
def runTwoEphemeral (cfg1 cfg2 : SSHTunnelConfig) (p1 p2 : Nat) : ClientState :=
  let st1 := addTunnelSync initClient 1 cfg1
  let st2 := addTunnelSync st1 2 cfg2
  let st3 := startTunnelProcess st2 1 { cfg1 with name := some (computedName cfg1) }
    (computedName cfg1) p1
  startTunnelProcess st3 2 { cfg2 with name := some (computedName cfg2) }
    (computedName cfg2) p2

/-- The result recorded for a call. -/
def resultFor (st : ClientState) (callId : Nat) : Option AddResult :=
  (st.results.find? (fun r => r.1 == callId)).map Prod.snd

/-- Claim C4 exactly as the spec states it for the case it singles out:
when the local port is unset or 0 and an ephemeral port is allocated first,
two near-simultaneous `addTunnel` calls whose specs yield the same computed
name must still spawn at most one process (the second observing the first
caller's in-flight tunnel). -/
def claimC4 : Prop :=
  ∀ (cfg1 cfg2 : SSHTunnelConfig) (p1 p2 : Nat),
    natTruthy cfg1.localPort = false →
    natTruthy cfg2.localPort = false →
    computedName cfg1 = computedName cfg2 →
    (runTwoEphemeral cfg1 cfg2 p1 p2).spawnCount ≤ 1

/-- A representative ephemeral-port tunnel spec (no `localPort`). -/
def c4ExampleSpec : SSHTunnelConfig := ⟨some "localhost", none, some 8000, none, none⟩

/-- C4 (counterexample): with ephemeral local ports, map registration is
deferred to the listen callback, so two near-simultaneous calls for the
same name both pass the active-map check and both spawn: the run spawns
two processes (and the second insert overwrites the first — last writer
wins). -/
theorem c4_claim_counterexample : ¬ claimC4 := by
  intro h
  exact absurd (h c4ExampleSpec c4ExampleSpec 40001 40002 rfl rfl rfl) (by decide)

lemma lookupName_insert_self (m : List (String × ActiveTunnel))
    (k : String) (v : ActiveTunnel) :
    lookupName (insertName m k v) k = some v := by
  induction m with
  | nil => simp [insertName, lookupName]
  | cons kv rest ih =>
    by_cases hk : kv.1 = k
    · simp [insertName, lookupName, hk]
    · simp [insertName, lookupName, hk, ih]

lemma addTunnelSync_found (st : ClientState) (callId : Nat)
    (cfg : SSHTunnelConfig) (t : ActiveTunnel)
    (h : lookupName st.active (computedName cfg) = some t) :
    addTunnelSync st callId cfg =
      { st with results := (callId, AddResult.existing t) :: st.results } := by
  simp [addTunnelSync, h]

lemma addTunnelSync_spawn (st : ClientState) (callId : Nat)
    (cfg : SSHTunnelConfig) (p : Nat)
    (h : lookupName st.active (computedName cfg) = none)
    (hp : cfg.localPort = some p) (h0 : p ≠ 0) :
    addTunnelSync st callId cfg =
      startTunnelProcess st callId { cfg with name := some (computedName cfg) }
        (computedName cfg) p := by
  simp [addTunnelSync, h, hp, h0]

lemma runSeqCall_found (st : ClientState) (callId : Nat)
    (cfg : SSHTunnelConfig) (ephPort : Nat) (t : ActiveTunnel)
    (h : lookupName st.active (computedName cfg) = some t) :
    runSeqCall st callId cfg ephPort =
      { st with results := (callId, AddResult.existing t) :: st.results } := by
  simp [runSeqCall, h]

lemma runSeqCall_not_found (st : ClientState) (callId : Nat)
    (cfg : SSHTunnelConfig) (ephPort : Nat)
    (h : lookupName st.active (computedName cfg) = none) :
    ∃ port, runSeqCall st callId cfg ephPort =
      startTunnelProcess st callId { cfg with name := some (computedName cfg) }
        (computedName cfg) port := by
  rcases hp : cfg.localPort with _ | p
  · exact ⟨ephPort, by simp [runSeqCall, h, hp]⟩
  · by_cases h0 : p = 0
    · exact ⟨ephPort, by simp [runSeqCall, h, hp, h0]⟩
    · exact ⟨p, by simp [runSeqCall, h, hp, h0]⟩

/-- C4 (amended): the tunnel entry is inserted into the active-tunnel map
before the establishment promise settles; when the local port is set and
non-zero the insertion happens synchronously inside the `addTunnel` call
itself, so of two near-simultaneous calls for the same name the first
caller wins — the second observes the first caller's in-flight tunnel,
spawns nothing, and the map still holds the first tunnel.  (When the local
port is unset or 0 the insertion is deferred to the ephemeral-port listen
callback and the guarantee does not hold.) -/
theorem c4_amended_registration (cfg1 cfg2 : SSHTunnelConfig) (p1 : Nat)
    (h1 : cfg1.localPort = some p1) (hp1 : p1 ≠ 0)
    (hname : computedName cfg1 = computedName cfg2) :
    ∃ t1 : ActiveTunnel,
      lookupName (addTunnelSync initClient 1 cfg1).active (computedName cfg1) = some t1 ∧
      (addTunnelSync initClient 1 cfg1).spawnCount = 1 ∧
      (addTunnelSync (addTunnelSync initClient 1 cfg1) 2 cfg2).spawnCount = 1 ∧
      resultFor (addTunnelSync (addTunnelSync initClient 1 cfg1) 2 cfg2) 2 =
        some (AddResult.existing t1) ∧
      lookupName (addTunnelSync (addTunnelSync initClient 1 cfg1) 2 cfg2).active
        (computedName cfg1) = some t1 := by
  have hcall1 := addTunnelSync_spawn initClient 1 cfg1 p1 rfl h1 hp1
  set t1 : ActiveTunnel :=
    ⟨{ cfg1 with name := some (computedName cfg1), localPort := some p1 }, p1, 0⟩ with ht1
  have hact : (addTunnelSync initClient 1 cfg1).active = [(computedName cfg1, t1)] := by
    rw [hcall1]
    rfl
  have hlk1 : lookupName (addTunnelSync initClient 1 cfg1).active (computedName cfg1) =
      some t1 := by
    rw [hact]
    simp [lookupName]
  have hlk2 : lookupName (addTunnelSync initClient 1 cfg1).active (computedName cfg2) =
      some t1 := by
    rw [← hname]
    exact hlk1
  have hcall2 := addTunnelSync_found (addTunnelSync initClient 1 cfg1) 2 cfg2 t1 hlk2
  refine ⟨t1, hlk1, ?_, ?_, ?_, ?_⟩
  · rw [hcall1]
    rfl
  · rw [hcall2, hcall1]
    rfl
  · rw [hcall2]
    simp [resultFor, List.find?]
  · rw [hcall2]
    exact hlk1

/-- C4 (witness): the amended registration guarantee on a concrete spec
with a fixed non-zero local port. -/
theorem c4_amended_registration_witness :
    (addTunnelSync (addTunnelSync initClient 1 ⟨some "localhost", some 9000, some 8000, none, none⟩)
        2 ⟨some "localhost", some 9000, some 8000, none, none⟩).spawnCount = 1 := by
  obtain ⟨t1, _, _, hsp, _, _⟩ := c4_amended_registration
    ⟨some "localhost", some 9000, some 8000, none, none⟩
    ⟨some "localhost", some 9000, some 8000, none, none⟩ 9000 rfl (by decide) rfl
  exact hsp

/-- C2: `addTunnel` is idempotent on the computed name: a call whose
computed name is already in the active-tunnel map only records the
existing tunnel as its result — no spawn, no map change; consequently two
sequential calls with specs yielding the same computed name spawn exactly
one process, and the second call returns exactly the tunnel object the
first call created. -/
theorem c2_addTunnel_idempotent (st : ClientState) (callId id1 id2 eph1 eph2 : Nat)
    (cfg cfg1 cfg2 : SSHTunnelConfig) (t : ActiveTunnel)
    (hlk : lookupName st.active (computedName cfg) = some t)
    (hname : computedName cfg1 = computedName cfg2)
    (hid : id1 ≠ id2) :
    (addTunnelSync st callId cfg =
      { st with results := (callId, AddResult.existing t) :: st.results }) ∧
    (runSeqCall (runSeqCall initClient id1 cfg1 eph1) id2 cfg2 eph2).spawnCount = 1 ∧
    ∃ t1, resultFor (runSeqCall (runSeqCall initClient id1 cfg1 eph1) id2 cfg2 eph2) id1 =
            some (AddResult.inFlight t1) ∧
          resultFor (runSeqCall (runSeqCall initClient id1 cfg1 eph1) id2 cfg2 eph2) id2 =
            some (AddResult.existing t1) := by
  have hpart1 := addTunnelSync_found st callId cfg t hlk
  obtain ⟨port, hrun1⟩ := runSeqCall_not_found initClient id1 cfg1 eph1 rfl
  set t1 : ActiveTunnel :=
    ⟨{ cfg1 with name := some (computedName cfg1), localPort := some port }, port, 0⟩ with ht1
  have hst1 : runSeqCall initClient id1 cfg1 eph1 =
      { active := [(computedName cfg1, t1)], nextProc := 1, spawnCount := 1,
        pendingCallbacks := [], results := [(id1, AddResult.inFlight t1)] } := by
    rw [hrun1]
    rfl
  have hlk2 : lookupName (runSeqCall initClient id1 cfg1 eph1).active (computedName cfg2) =
      some t1 := by
    rw [hst1, ← hname]
    simp [lookupName]
  have hrun2 := runSeqCall_found (runSeqCall initClient id1 cfg1 eph1) id2 cfg2 eph2 t1 hlk2
  refine ⟨hpart1, ?_, t1, ?_, ?_⟩
  · rw [hrun2, hst1]
  · rw [hrun2, hst1]
    simp only [resultFor, List.find?]
    have hne : ((id2, AddResult.existing t1).1 == id1) = false := by
      simp [Ne.symm hid]
    rw [hne]
    simp [List.find?]
  · rw [hrun2, hst1]
    simp [resultFor, List.find?]

/-- C2 (witness): a call whose computed name is already active returns the
stored tunnel, and two sequential `addTunnel` calls with the same
remote-address/port spec spawn exactly one process. -/
theorem c2_addTunnel_idempotent_witness :
    (runSeqCall (runSeqCall initClient 1 ⟨some "localhost", some 9000, some 8000, none, none⟩ 7000)
        2 ⟨some "localhost", some 9000, some 8000, none, none⟩ 7001).spawnCount = 1 := by
  obtain ⟨_, hsp, _⟩ := c2_addTunnel_idempotent
    ⟨[("n", ⟨⟨none, none, none, none, some "n"⟩, 1, 0⟩)], 1, 1, [], []⟩ 5 1 2 7000 7001
    ⟨none, none, none, none, some "n"⟩
    ⟨some "localhost", some 9000, some 8000, none, none⟩
    ⟨some "localhost", some 9000, some 8000, none, none⟩
    ⟨⟨none, none, none, none, some "n"⟩, 1, 0⟩
    (by decide) rfl (by decide)
  exact hsp

/-- The split of `authority.split('+')`, by character recursion. -/
def splitPlusAux : List Char → List Char → List String
  | cur, [] => [String.mk cur.reverse]
  | cur, c :: cs =>
      if c = '+' then String.mk cur.reverse :: splitPlusAux [] cs
      else splitPlusAux (c :: cur) cs

def splitPlus (s : String) : List String := splitPlusAux [] s.data

/-- The destructured `type` of `const [type, dest] = authority.split('+')`. -/
def authorityType (s : String) : String := (splitPlus s).headD ""

/-- What the bootstrap collaborator (`installCodeServer`) reports. -/
structure ServerResult where
  listeningOn : Sum Nat String
  connectionToken : String
  deriving DecidableEq, Repr

/-- The triple a successful resolve returns. -/
structure ResolveOutcome where
  host : String
  port : Nat
  connectionToken : String
  deriving DecidableEq, Repr

/-- A tunnel recorded in the resolver's `tunnels` list. -/
structure TunnelInfoM where
  localPort : Nat
  remotePortOrSocketPath : Sum Nat String
  deriving DecidableEq, Repr

/-- The two error shapes a `resolve` call can reject with: a plain
`Error` escaping unwrapped, or the `RemoteAuthorityResolverError`
(`ResolutionFailed`) thrown by the catch block. -/
inductive ResolveError where
  | plainError (msg : String)
  | resolutionFailed (msg : String)
  deriving DecidableEq, Repr

/-- The collaborator outcomes a single `resolve` call observes: the
destination parse, the static platform map, the one-shot `uname -s` probe,
the bootstrap (as a function of the platform hint it is given), the
allocated local port and the tunnel-establishment outcome. -/
structure ResolveEnv where
  parse : Except String SSHDest
  platformMap : List (String × String)
  probe : Except String String
  bootstrap : Option String → Except String ServerResult
  localPort : Nat
  tunnel : Except String Unit

/-- JavaScript property read `remotePlatformMap[hostname]`. -/
def lookupStr (m : List (String × String)) (k : String) : Option String :=
  match m with
  | [] => none
  | (k2, v) :: rest => if k2 = k then some v else lookupStr rest k

/-- The substring classification of the probe's stdout. -/
def classifyPlatform (out : String) : Option String :=
  if strContains out "Linux" = true then some "linux"
  else if strContains out "Darwin" = true then some "macos"
  else if (strContains out "Windows" || strContains out "MINGW"
      || strContains out "MSYS") = true then some "windows"
  else none

/-- The `platform` value handed to the bootstrap step: the map entry when
truthy; otherwise the probe's classification when the probe succeeds and
matches, and the (possibly undefined) map entry when the probe fails or
matches nothing. -/
def platformHint (env : ResolveEnv) (host : String) : Option String :=
  match lookupStr env.platformMap host with
  | some p =>
      if p = "" then
        match env.probe with
        | Except.ok out =>
            match classifyPlatform out with
            | some q => some q
            | none => some p
        | Except.error _ => some p
      else some p
  | none =>
      match env.probe with
      | Except.ok out => classifyPlatform out
      | Except.error _ => none

/-- The bootstrap and tunnel steps of `resolve`, inside the try/catch that
wraps every exception into `RemoteAuthorityResolverError`; a successful
tunnel is pushed onto the resolver's tunnel list. -/
def afterPlatform (env : ResolveEnv) (hint : Option String) :
    Except ResolveError ResolveOutcome × List TunnelInfoM :=
  match env.bootstrap hint with
  | Except.error m => (Except.error (ResolveError.resolutionFailed m), [])
  | Except.ok sr =>
      match env.tunnel with
      | Except.error m => (Except.error (ResolveError.resolutionFailed m), [])
      | Except.ok _ =>
          (Except.ok ⟨"localhost", env.localPort, sr.connectionToken⟩,
           [⟨env.localPort, sr.listeningOn⟩])

/-- `RemoteSSHResolver.resolve`: the authority-type check and the
destination parse run before the progress body, outside the try/catch, so
their failures escape as plain errors; everything afterwards is wrapped. -/
def resolveModel (authority : String) (env : ResolveEnv) :
    Except ResolveError ResolveOutcome × List TunnelInfoM :=
  if authorityType authority ≠ "ssh-remote" then
    (Except.error (ResolveError.plainError
      ("Invalid authority type for SSH resolver: " ++ authorityType authority)), [])
  else
    match env.parse with
    | Except.error m => (Except.error (ResolveError.plainError m), [])
    | Except.ok d => afterPlatform env (platformHint env d.hostname)

/-- Claim C5 exactly as the spec states it: every failure of any resolve
step is wrapped into the single externally-visible error kind before
crossing the resolver boundary — no plain error ever escapes. -/
def claimC5 : Prop :=
  ∀ (authority : String) (env : ResolveEnv) (m : String),
    (resolveModel authority env).1 ≠ Except.error (ResolveError.plainError m)

/-- An environment whose destination parse throws. -/
def c5ExampleEnv : ResolveEnv where
  parse := Except.error "bad destination"
  platformMap := []
  probe := Except.error "nope"
  bootstrap := fun _ => Except.ok ⟨Sum.inl 8000, "tok"⟩
  localPort := 45000
  tunnel := Except.ok ()

/-- C5 (counterexample): a failing destination parse happens before the
try/catch of the progress body, so `resolve` rejects with the raw parse
error, not with `ResolutionFailed` — callers do observe an internal
exception shape. -/
theorem c5_claim_counterexample : ¬ claimC5 := fun h =>
  h "ssh-remote+bad" c5ExampleEnv "bad destination" rfl

/-- C5 (amended): failures of the steps inside the progress body —
bootstrap and tunnel establishment — are wrapped into the single
externally-visible `ResolutionFailed` error carrying the underlying
message, and when the bootstrap collaborator throws, `resolve` rejects
with `ResolutionFailed` and no tunnel is left registered; however the
authority-type check and the destination parse run before the wrapping
boundary and their failures propagate unwrapped. -/
theorem c5_amended_error_wrapping (env : ResolveEnv) (authority : String)
    (d : SSHDest) (m : String)
    (hty : authorityType authority = "ssh-remote")
    (hparse : env.parse = Except.ok d) :
    (env.bootstrap (platformHint env d.hostname) = Except.error m →
      resolveModel authority env = (Except.error (ResolveError.resolutionFailed m), [])) ∧
    (∀ sr, env.bootstrap (platformHint env d.hostname) = Except.ok sr →
      env.tunnel = Except.error m →
      resolveModel authority env = (Except.error (ResolveError.resolutionFailed m), [])) := by
  constructor
  · intro hb
    simp [resolveModel, hty, hparse, afterPlatform, hb]
  · intro sr hb ht
    simp [resolveModel, hty, hparse, afterPlatform, hb, ht]

/-- An environment whose bootstrap collaborator throws. -/
def c5WitnessEnv : ResolveEnv where
  parse := Except.ok ⟨"example.com", none, some "alice"⟩
  platformMap := []
  probe := Except.error "nope"
  bootstrap := fun _ => Except.error "boom"
  localPort := 45123
  tunnel := Except.ok ()

/-- C5 (witness): with a throwing bootstrap collaborator, `resolve`
rejects with `ResolutionFailed` carrying the message and registers no
tunnel. -/
theorem c5_amended_error_wrapping_witness :
    resolveModel "ssh-remote+example.com" c5WitnessEnv =
      (Except.error (ResolveError.resolutionFailed "boom"), []) := by
  have h := c5_amended_error_wrapping c5WitnessEnv "ssh-remote+example.com"
    ⟨"example.com", none, some "alice"⟩ "boom" rfl rfl
  exact h.1 rfl

/-- C9: for a host with no entry in the static platform override map, a
failing `uname -s` probe leaves the platform hint undefined and never
aborts the resolve: the call proceeds to the bootstrap step with hint
`none`, and succeeds whenever bootstrap and tunnel succeed. -/
theorem c9_probe_failure_tolerated (env : ResolveEnv) (authority : String)
    (d : SSHDest) (m : String)
    (hty : authorityType authority = "ssh-remote")
    (hparse : env.parse = Except.ok d)
    (hmap : lookupStr env.platformMap d.hostname = none)
    (hprobe : env.probe = Except.error m) :
    platformHint env d.hostname = none ∧
    resolveModel authority env = afterPlatform env none ∧
    (∀ sr, env.bootstrap none = Except.ok sr → env.tunnel = Except.ok () →
      (resolveModel authority env).1 =
        Except.ok ⟨"localhost", env.localPort, sr.connectionToken⟩) := by
  have hhint : platformHint env d.hostname = none := by
    simp [platformHint, hmap, hprobe]
  refine ⟨hhint, ?_, ?_⟩
  · simp [resolveModel, hty, hparse, hhint]
  · intro sr hb htn
    simp [resolveModel, hty, hparse, hhint, afterPlatform, hb, htn]

/-- An environment with an empty platform map and a failing probe. -/
def c9WitnessEnv : ResolveEnv where
  parse := Except.ok ⟨"example.com", none, none⟩
  platformMap := []
  probe := Except.error "uname failed"
  bootstrap := fun _ => Except.ok ⟨Sum.inl 8000, "tok"⟩
  localPort := 45124
  tunnel := Except.ok ()

/-- C9 (witness): a failing probe on an unmapped host still resolves when
bootstrap and tunnel succeed. -/
theorem c9_probe_failure_tolerated_witness :
    (resolveModel "ssh-remote+example.com" c9WitnessEnv).1 =
      Except.ok ⟨"localhost", 45124, "tok"⟩ := by
  have h := c9_probe_failure_tolerated c9WitnessEnv "ssh-remote+example.com"
    ⟨"example.com", none, none⟩ "uname failed" rfl rfl rfl rfl
  exact h.2.2 ⟨Sum.inl 8000, "tok"⟩ rfl rfl

end OpenRemoteSSH
